import Mathlib

/-!
Verification of the per-core RPC server of this repository
(`src/v/rpc/server.cc`) and of the audit-log backpressure law exercised by
`src/v/security/audit/tests/audit_log_test.cc`.

Two complementary embeddings of `server.cc` are given:

* a functional model (`dispatch_method_once`, `continous_method_dispath`)
  that computes, for a single connection processed to completion, the probe
  counters, the sequence of written replies and whether the dispatch loop
  terminated with an error.  It captures the per-request data flow of the
  source: header parse outcome, linear service lookup, the
  `method_not_found` throw, byte accounting and correlation-id stamping.

* a labeled small-step semantics (`Step`, `Trace`) of the cooperative
  fibers of one connection: the dispatch loop (which awaits only the
  body-parse signal of `server_context_impl::signal_body_parse`), the
  background handler fibers spawned under `conn_gate`, and the `stop()`
  sequence.  The interleaving of handler reply production with subsequent
  parsing, the gate check at write time, and the shutdown drain are stated
  over this relation.

The audit-log manager itself is not part of the sources here (only its
test is), so it is modelled from the spec where marked.
-/

namespace rpc

/-- Wire header of a request, as described by `rpc/types.h` and used by
`server.cc`: version, flags, method id (`meta`), body length (`size`),
checksum and correlation id.  All fields are modelled as `Nat`. -/
structure header where
  version : Nat
  flags : Nat
  meta : Nat
  size : Nat
  checksum : Nat
  correlation_id : Nat
deriving DecidableEq, Repr

/-- Fixed byte width of the wire header (`sizeof(header)` in the source);
its concrete value is irrelevant to every claim, only that it is a fixed
constant added to `size` when accounting received bytes. -/
def header_size : Nat := 26

/-- Reply buffer (`netbuf`): a correlation id slot plus opaque payload
bytes. -/
structure netbuf where
  correlation_id : Nat
  payload : List Nat
deriving DecidableEq, Repr

/-- Model of `netbuf::set_correlation_id`. -/
def netbuf.set_correlation_id (n : netbuf) (c : Nat) : netbuf :=
  { n with correlation_id := c }

/-- A service method: consumes the header and the body bytes and produces a
reply buffer.  In the source a method is `(input_stream, streaming_context&)
-> future<netbuf>`; the body bytes and header are what it actually reads
from those arguments. -/
def method : Type := header → List Nat → netbuf

/-- A registered service: the capability `method_from_id`. -/
structure service where
  method_from_id : Nat → Option method

/-- Linear lookup over the ordered service registry, mirroring the
`std::find_if` over `_services` in `dispatch_method_once` followed by
`method_from_id` on the found service: the first service whose
`method_from_id` is non-null wins. -/
def method_from_services : List service → Nat → Option method
  | [], _ => none
  | s :: rest, id =>
    match s.method_from_id id with
    | some m => some m
    | none => method_from_services rest id

/-- Probe counters of `server_probe` touched by `server.cc`. -/
structure probe_t where
  header_corrupted : Nat
  method_not_found : Nat
  bytes_received : Nat
  requests_completed : Nat
deriving DecidableEq, Repr

def probe_t.init : probe_t := ⟨0, 0, 0, 0⟩

/-- Model of `_probe.header_corrupted()`. -/
def probe_t.inc_header_corrupted (p : probe_t) : probe_t :=
  { p with header_corrupted := p.header_corrupted + 1 }

/-- Model of `_probe.method_not_found()`. -/
def probe_t.inc_method_not_found (p : probe_t) : probe_t :=
  { p with method_not_found := p.method_not_found + 1 }

/-- Model of `_probe.add_bytes_received(n)`. -/
def probe_t.add_bytes_received (p : probe_t) (n : Nat) : probe_t :=
  { p with bytes_received := p.bytes_received + n }

/-- Model of `_probe.request_completed()`. -/
def probe_t.inc_request_completed (p : probe_t) : probe_t :=
  { p with requests_completed := p.requests_completed + 1 }

/-- Result of one `parse_header` call on the connection input: either the
codec returned an absent optional (corrupt or short header) or a header
followed by its body bytes. -/
inductive frame where
  | corrupt : frame
  | ok : header → List Nat → frame
deriving DecidableEq, Repr

/-- Outcome of `server::dispatch_method_once` for one parsed header, in the
sequential-completion projection (the spawned handler runs to completion):
either the method id is unknown — the probe counts `method_not_found` and
the call throws, so the error carries only the updated probe — or the
handler produced a reply which was stamped with the header correlation id,
with bytes accounted and `request_completed` bumped by the `finally`. -/
def dispatch_method_once (services : List service) (p : probe_t)
    (h : header) (body : List Nat) : Except probe_t (probe_t × netbuf) :=
  match method_from_services services h.meta with
  | none => .error p.inc_method_not_found
  | some m =>
    let p1 := p.add_bytes_received (header_size + h.size)
    let n := (m h body).set_correlation_id h.correlation_id
    .ok (p1.inc_request_completed, n)

/-- Result of running the dispatch loop of one connection to completion:
final probe, the replies written in order, and whether the loop terminated
by throwing (which tears the connection down with an error). -/
structure run_result where
  probe : probe_t
  writes : List netbuf
  errored : Bool
deriving DecidableEq, Repr

/-- Model of `server::continous_method_dispath` (the `do_until` loop over
`parse_header`), in the sequential-completion projection: an absent header
counts `header_corrupted` and continues with the next header; a known
method produces a write; an unknown method throws out of the loop, leaving
the remaining input unprocessed. -/
def continous_method_dispath (services : List service) (p : probe_t) :
    List frame → run_result
  | [] => ⟨p, [], false⟩
  | .corrupt :: rest =>
    continous_method_dispath services p.inc_header_corrupted rest
  | .ok h body :: rest =>
    match dispatch_method_once services p h body with
    | .error p1 => ⟨p1, [], true⟩
    | .ok (p1, n) =>
      let r := continous_method_dispath services p1 rest
      ⟨r.probe, n :: r.writes, r.errored⟩

/-- Phase of one background handler fiber spawned by
`dispatch_method_once` under `conn_gate`:
`reading` — the method body is consuming the request body off the input;
`signalled` — the handler has called `signal_body_parse()` (resolving the
promise the dispatch loop awaits) and is producing its reply;
`resolved` — the reply buffer is ready, correlation id stamped, and the
continuation is at the gate check before `conn->write`;
`done` — the write-or-skip decision was taken and `request_completed` ran. -/
inductive handler_phase where
  | reading : handler_phase
  | signalled : handler_phase
  | resolved : handler_phase
  | done : handler_phase
deriving DecidableEq, Repr

/-- Control state of the per-connection dispatch-loop fiber
(`continous_method_dispath`): about to evaluate the `do_until` condition
and parse the next header, awaiting the body-parse future of handler `k`,
or terminated (with or without an error). -/
inductive loop_state where
  | parsing : List frame → loop_state
  | waitingBody : Nat → List frame → loop_state
  | terminated : Bool → loop_state
deriving DecidableEq, Repr

/-- Progress of `server::stop()`: not yet called; called (its synchronous
prefix — `abort_accept` on the listeners, `request_abort`,
`shutdown_input` on the connections, and the `close()` of `conn_gate`
which marks the gate closed — has run); or returned (the gate future
resolved and the remaining connections were `shutdown()`). -/
inductive stop_phase where
  | notStarted : stop_phase
  | begun : stop_phase
  | returned : stop_phase
deriving DecidableEq, Repr

/-- Shard state for one connection of the server: the dispatch-loop fiber,
the phases of the spawned handler fibers (a handler is named by its
arrival index, its position in this list), the gate / abort-source /
input-shutdown flags, the listener and registry teardown flags, the
sequence of issued reply writes (by handler index) and the probe. -/
structure shard where
  loop : loop_state
  handlers : List handler_phase
  gateClosed : Bool
  inputClosed : Bool
  abortRequested : Bool
  listenersAborted : Bool
  connsShutdown : Bool
  stop : stop_phase
  writes : List Nat
  probe : probe_t
  memAcquired : Nat
deriving DecidableEq, Repr

/-- Observable label of one scheduler step. -/
inductive label where
  | parseCorrupt : label
  | spawn : Nat → label
  | notFound : label
  | gateClosedDispatch : label
  | loopExit : label
  | loopResume : Nat → label
  | bodyParsed : Nat → label
  | replyReady : Nat → label
  | writeOrSkip : Nat → Bool → label
  | reserveMemory : Nat → Nat → label
  | stopBegin : label
  | stopFinish : label
deriving DecidableEq, Repr

/-- Cooperative small-step relation of the single-shard scheduler, one
connection, over a fixed service registry.  Each constructor is one
resumption of one fiber between suspension points of `server.cc`:

* `loopExit` — the `do_until` condition (`input().eof() ||
  _as.abort_requested()`) observed true; the loop ends cleanly.
* `parseCorrupt` — `parse_header` returned an absent optional:
  `header_corrupted` is counted and the loop repeats (lines 125-130).
* `notFound` — no registered service claims the method id:
  `method_not_found` is counted and `dispatch_method_once` throws,
  terminating the loop with an error (lines 147-151).
* `gateClosedDispatch` — bytes were accounted (line 154) but the gate was
  already closed at line 156: an exception future, no handler spawned.
* `spawn` — a handler fiber for the next arrival index is launched under
  the gate in phase `reading`, bytes accounted, and the loop suspends on
  the body-parse future (lines 152-176).
* `loopResume` — the awaited future is resolved, which happens exactly
  when the handler has passed `signal_body_parse` (any phase other than
  `reading`); the loop returns to the condition check / next parse.
* `bodyParsed` — the handler consumed the body and calls
  `signal_body_parse()` (`pr.set_value()`), entering reply production.
* `replyReady` — the handler future resolved with a `netbuf`; the
  continuation of line 161 stamped the correlation id and now sits at the
  gate check of line 164.
* `writeOrSkip` — the continuation takes the write-or-skip decision: if
  the gate is closed the write is skipped, otherwise the write is issued
  to the connection (appended to `writes`); either way the `finally` of
  line 174 counts `request_completed`.
* `reserveMemory` — a live handler fiber acquires `ask` units from the
  memory semaphore through `server_context_impl::reserve_memory`; only
  handler fibers ever reach this call, so the step requires handler `k`
  to exist and not be finished.
* `stopBegin` — the synchronous prefix of `stop()`: aborts the listeners,
  raises the abort source, shuts down connection input, and closes the
  gate (`is_closed()` is true from here on); runs atomically because the
  shard is cooperatively scheduled and this prefix never awaits.
* `stopFinish` — the gate-close future resolves: every task spawned under
  the gate (the loop and all handler fibers) has finished; the remaining
  registered connections are `shutdown()` and `stop()` returns. -/
inductive Step (services : List service) : shard → label → shard → Prop
  | loopExit {s : shard} {fs : List frame} {s2 : shard} :
      s.loop = .parsing fs →
      (s.abortRequested = true ∨ s.inputClosed = true ∨ fs = []) →
      s2 = { s with loop := .terminated false } →
      Step services s .loopExit s2
  | parseCorrupt {s : shard} {fs : List frame} {s2 : shard} :
      s.loop = .parsing (.corrupt :: fs) →
      s.abortRequested = false → s.inputClosed = false →
      s2 = { s with loop := .parsing fs,
                    probe := s.probe.inc_header_corrupted } →
      Step services s .parseCorrupt s2
  | notFound {s : shard} {h : header} {b : List Nat} {fs : List frame}
      {s2 : shard} :
      s.loop = .parsing (.ok h b :: fs) →
      s.abortRequested = false → s.inputClosed = false →
      method_from_services services h.meta = none →
      s2 = { s with loop := .terminated true,
                    probe := s.probe.inc_method_not_found } →
      Step services s .notFound s2
  | gateClosedDispatch {s : shard} {h : header} {b : List Nat}
      {fs : List frame} {m : method} {s2 : shard} :
      s.loop = .parsing (.ok h b :: fs) →
      s.abortRequested = false → s.inputClosed = false →
      method_from_services services h.meta = some m →
      s.gateClosed = true →
      s2 = { s with loop := .terminated true,
                    probe := s.probe.add_bytes_received
                      (header_size + h.size) } →
      Step services s .gateClosedDispatch s2
  | spawn {s : shard} {h : header} {b : List Nat} {fs : List frame}
      {m : method} {s2 : shard} :
      s.loop = .parsing (.ok h b :: fs) →
      s.abortRequested = false → s.inputClosed = false →
      method_from_services services h.meta = some m →
      s.gateClosed = false →
      s2 = { s with loop := .waitingBody s.handlers.length fs,
                    handlers := s.handlers ++ [.reading],
                    probe := s.probe.add_bytes_received
                      (header_size + h.size) } →
      Step services s (.spawn s.handlers.length) s2
  | loopResume {s : shard} {k : Nat} {fs : List frame}
      {ph : handler_phase} {s2 : shard} :
      s.loop = .waitingBody k fs →
      s.handlers[k]? = some ph → ph ≠ .reading →
      s2 = { s with loop := .parsing fs } →
      Step services s (.loopResume k) s2
  | bodyParsed {s : shard} {k : Nat} {s2 : shard} :
      s.handlers[k]? = some .reading →
      s2 = { s with handlers := s.handlers.set k .signalled } →
      Step services s (.bodyParsed k) s2
  | replyReady {s : shard} {k : Nat} {s2 : shard} :
      s.handlers[k]? = some .signalled →
      s2 = { s with handlers := s.handlers.set k .resolved } →
      Step services s (.replyReady k) s2
  | writeOrSkip {s : shard} {k : Nat} {s2 : shard} :
      s.handlers[k]? = some .resolved →
      s2 = { s with handlers := s.handlers.set k .done,
                    writes := if s.gateClosed then s.writes
                              else s.writes ++ [k],
                    probe := s.probe.inc_request_completed } →
      Step services s (.writeOrSkip k !s.gateClosed) s2
  | reserveMemory {s : shard} {k ask : Nat} {ph : handler_phase}
      {s2 : shard} :
      s.handlers[k]? = some ph → ph ≠ .done →
      s2 = { s with memAcquired := s.memAcquired + ask } →
      Step services s (.reserveMemory k ask) s2
  | stopBegin {s : shard} {s2 : shard} :
      s.stop = .notStarted →
      s2 = { s with stop := .begun,
                    listenersAborted := true,
                    abortRequested := true,
                    inputClosed := true,
                    gateClosed := true } →
      Step services s .stopBegin s2
  | stopFinish {s : shard} {e : Bool} {s2 : shard} :
      s.stop = .begun →
      s.loop = .terminated e →
      (∀ ph ∈ s.handlers, ph = handler_phase.done) →
      s2 = { s with stop := .returned, connsShutdown := true } →
      Step services s .stopFinish s2

/-- Reflexive-transitive closure of `Step`, collecting the labels of the
schedule in order. -/
inductive Trace (services : List service) :
    shard → List label → shard → Prop
  | refl (s : shard) : Trace services s [] s
  | cons {s s2 s3 : shard} {l : label} {ls : List label} :
      Step services s l s2 → Trace services s2 ls s3 →
      Trace services s (l :: ls) s3

/-- Sequence of correlation ids of the headers whose requests are
successfully dispatched by the loop, in arrival order: corrupt headers
contribute nothing, an unknown method id cuts the sequence (the loop
throws), a dispatched request contributes its header's correlation id.
Spec-side projection used to state C7 against the replies the loop
writes. -/
def dispatched_cids (services : List service) : List frame → List Nat
  | [] => []
  | .corrupt :: rest => dispatched_cids services rest
  | .ok h _ :: rest =>
    match method_from_services services h.meta with
    | none => []
    | some _ => h.correlation_id :: dispatched_cids services rest

end rpc

namespace security_audit

/-- Event types named by the audit test (`audit_log_test.cc`); the test
configures `management` and `consume` as the enabled types. -/
inductive event_type where
  | management : event_type
  | consume : event_type
  | authenticate : event_type
  | describe : event_type
deriving DecidableEq, Repr

/-- Modelled from the spec: the audit log manager itself
(`security/audit/audit_log_manager.h`) is not among the sources, only its
test fixture is.  Per the spec's enqueue-drain law and the test's
observable behaviour: the manager holds a per-shard byte reservation of
capacity `audit_queue_max_buffer_size_per_shard`; with auditing
effectively enabled, enqueueing an event of a configured type succeeds iff
the available reservation covers the event's size (auditing-style
backpressure: enqueue fails iff `available < event_size`); with auditing
disabled, or for a non-configured event type, enqueue is a successful
no-op. -/
structure audit_log_manager where
  effectively_enabled : Bool
  enabled_event_types : List event_type
  max_buffer : Nat
  used : Nat
deriving DecidableEq, Repr

/-- Modelled from the spec: the reservation still available on the shard
(name kept from the test's call `m.avaiable_reservation()`). -/
def audit_log_manager.avaiable_reservation (m : audit_log_manager) : Nat :=
  m.max_buffer - m.used

/-- Modelled from the spec: attempt to enqueue one audit event of type `t`
and estimated size `sz`; returns whether the event was (or counts as)
enqueued, together with the updated manager. -/
def audit_log_manager.enqueue_audit_event (m : audit_log_manager)
    (t : event_type) (sz : Nat) : Bool × audit_log_manager :=
  if m.effectively_enabled = false then (true, m)
  else if t ∈ m.enabled_event_types then
    if sz ≤ m.avaiable_reservation then (true, { m with used := m.used + sz })
    else (false, m)
  else (true, m)

/-- Observation of one enqueue attempt: the event type, its size, the
available reservation at the instant of the attempt, and the returned
success flag. -/
structure attempt_obs where
  t : event_type
  size : Nat
  avail : Nat
  ok : Bool
deriving DecidableEq, Repr

/-- Run a sequence of enqueue attempts against the manager, recording for
each one the reservation available at the instant of the attempt and the
outcome, threading the manager state (the test's per-shard loop of 200
attempts is one such sequence). -/
def run_attempts (m : audit_log_manager) :
    List (event_type × Nat) → List attempt_obs
  | [] => []
  | (t, sz) :: rest =>
    let r := m.enqueue_audit_event t sz
    ⟨t, sz, m.avaiable_reservation, r.1⟩ :: run_attempts r.2 rest

end security_audit

namespace rpc

/-- Echo method used by the concrete fixtures: replies with the request
body (the correlation id slot is stamped by the dispatch path, so its
initial value is irrelevant). -/
def echo : method := fun _ b => ⟨0, b⟩

/-- Constant method used by the duplicate-id fixture for C8. -/
def shadowed : method := fun _ _ => ⟨0, [7]⟩

/-- Service claiming method id 1 with `echo`. -/
def echo_service : service :=
  { method_from_id := fun id => if id = 1 then some echo else none }

/-- Service registered later that also claims method id 1 (and id 2), used
to check that the earliest-registered service wins on duplicates. -/
def shadow_service : service :=
  { method_from_id := fun id =>
      if id = 1 then some shadowed
      else if id = 2 then some shadowed else none }

/-- Service claiming nothing. -/
def empty_service : service := { method_from_id := fun _ => none }

/-- Registry of the single-service fixtures. -/
def test_services : List service := [echo_service]

/-- First request header of the reordering fixture: method 1, body of two
bytes, correlation id 101. -/
def hdrA : header := ⟨0, 0, 1, 2, 0, 101⟩

/-- Second request header of the reordering fixture: method 1, body of two
bytes, correlation id 102. -/
def hdrB : header := ⟨0, 0, 1, 2, 0, 102⟩

/-- Header with a method id (9) that no service of `test_services`
claims. -/
def hdrBad : header := ⟨0, 0, 9, 2, 0, 103⟩

/-- Idle shard: one connection accepted, given input frames, nothing
dispatched yet, gate open, stop not called. -/
def shard.init (fs : List frame) : shard :=
  { loop := .parsing fs
    handlers := []
    gateClosed := false
    inputClosed := false
    abortRequested := false
    listenersAborted := false
    connsShutdown := false
    stop := .notStarted
    writes := []
    probe := probe_t.init
    memAcquired := 0 }

/-- Handler index written by a step, when the step issues a write: only a
`writeOrSkip` with the gate open does. -/
def label.writeOf : label → Option Nat
  | .writeOrSkip k true => some k
  | _ => none

/-- Second frame of the reordering schedule. -/
def c1_fB : frame := .ok hdrB [3, 4]

/-- Initial shard of the reordering schedule: two well-formed requests
queued, request 0 (correlation id 101) ahead of request 1 (correlation id
102). -/
def c1_s0 : shard := shard.init [.ok hdrA [1, 2], c1_fB]

def c1_s1 : shard :=
  { c1_s0 with loop := .waitingBody 0 [c1_fB], handlers := [.reading],
               probe := ⟨0, 0, 28, 0⟩ }

def c1_s2 : shard := { c1_s1 with handlers := [.signalled] }

def c1_s3 : shard := { c1_s2 with loop := .parsing [c1_fB] }

def c1_s4 : shard :=
  { c1_s3 with loop := .waitingBody 1 [],
               handlers := [.signalled, .reading],
               probe := ⟨0, 0, 56, 0⟩ }

def c1_s5 : shard := { c1_s4 with handlers := [.signalled, .signalled] }

def c1_s6 : shard := { c1_s5 with handlers := [.signalled, .resolved] }

def c1_s7 : shard :=
  { c1_s6 with handlers := [.signalled, .done], writes := [1],
               probe := ⟨0, 0, 56, 1⟩ }

def c1_s8 : shard := { c1_s7 with handlers := [.resolved, .done] }

/-- Final shard of the reordering schedule: both replies produced and
written, the reply of the later request first. -/
def c1_s9 : shard :=
  { c1_s8 with handlers := [.done, .done], writes := [1, 0],
               probe := ⟨0, 0, 56, 2⟩ }

/-- The reordering schedule: handler 0 signals body parse, the loop
dispatches request 1, handler 1 resolves and writes first, then handler 0
resolves and writes. -/
def c1_labels : List label :=
  [.spawn 0, .bodyParsed 0, .loopResume 0, .spawn 1, .bodyParsed 1,
   .replyReady 1, .writeOrSkip 1 true, .replyReady 0, .writeOrSkip 0 true]

/-- Shard whose dispatch loop awaits the body-parse future of handler 0,
which has signalled but not yet produced its reply. -/
def c2_s : shard :=
  { shard.init [] with loop := .waitingBody 0 [.corrupt],
                       handlers := [.signalled] }

/-- Shard `c2_s` after the loop resumed to parse the next header. -/
def c2_t : shard := { c2_s with loop := .parsing [.corrupt] }

/-- Idle shard before `stop()` is called. -/
def c3_s0 : shard := shard.init []

/-- Shard `c3_s0` right after the synchronous prefix of `stop()`. -/
def c3_s1 : shard :=
  { c3_s0 with stop := .begun, listenersAborted := true,
               abortRequested := true, inputClosed := true,
               gateClosed := true }

/-- Shard `c3_s1` after the dispatch loop observed the abort and exited. -/
def c3_s2 : shard := { c3_s1 with loop := .terminated false }

/-- Shard `c3_s2` after the gate future resolved and `stop()` returned. -/
def c3_s3 : shard := { c3_s2 with stop := .returned, connsShutdown := true }

/-- Shard being torn down: gate already closed while handler 0 sits at the
gate check with its reply ready. -/
def c6_s : shard :=
  { shard.init [] with loop := .terminated false, handlers := [.resolved],
                       gateClosed := true, inputClosed := true,
                       abortRequested := true, stop := .begun }

/-- Shard `c6_s` after handler 0 took its write-or-skip decision: the
write was skipped, `request_completed` still counted. -/
def c6_t : shard :=
  { c6_s with handlers := [.done], probe := ⟨0, 0, 0, 1⟩ }

/-- Shard holding one request whose method id no service claims. -/
def c10_s : shard := shard.init [.ok hdrBad [9, 9]]

/-- Shard `c10_s` after the failed dispatch: `method_not_found` counted,
loop terminated with an error, no handler spawned. -/
def c10_t : shard :=
  { c10_s with loop := .terminated true, probe := ⟨0, 1, 0, 0⟩ }

end rpc

namespace security_audit

/-- Audit manager fixture: auditing effectively enabled, `management` and
`consume` configured, 100 bytes of shard reservation, empty queue. -/
def c9_m0 : audit_log_manager := ⟨true, [.management, .consume], 100, 0⟩

/-- Enqueue-attempt sequence of the fixture: two 60-byte management
events (the second must fail: only 40 bytes remain), then a 30-byte
consume event (fits again). -/
def c9_attempts : List (event_type × Nat) :=
  [(.management, 60), (.management, 60), (.consume, 30)]

/-- The observation of the second attempt of `c9_attempts`: 60 bytes
asked, 40 available, enqueue refused. -/
def c9_obs : attempt_obs := ⟨.management, 60, 40, false⟩

end security_audit

namespace rpc

/-- The writes and the error outcome of the dispatch loop do not depend on
the incoming probe counters: the probe is write-only bookkeeping. -/
theorem run_writes_errored_probe_indep (v : List service) (p q : probe_t) :
    ∀ fs : List frame,
      (continous_method_dispath v p fs).writes
        = (continous_method_dispath v q fs).writes
      ∧ (continous_method_dispath v p fs).errored
        = (continous_method_dispath v q fs).errored := by
  intro fs
  induction fs generalizing p q with
  | nil => exact ⟨rfl, rfl⟩
  | cons f rest ih =>
    cases f with
    | corrupt =>
      simpa [continous_method_dispath] using
        ih p.inc_header_corrupted q.inc_header_corrupted
    | ok h b =>
      cases hm : method_from_services v h.meta with
      | none =>
        simp [continous_method_dispath, dispatch_method_once, hm]
      | some m =>
        have := ih ((p.add_bytes_received
          (header_size + h.size)).inc_request_completed)
          ((q.add_bytes_received (header_size + h.size)).inc_request_completed)
        simp [continous_method_dispath, dispatch_method_once, hm]
        exact this

/-- C4: a header the codec reports as absent only increments the
header-corrupted counter and sends the loop back to parse the next header
of the same connection: the run on the remaining input is unchanged, so
subsequent well-formed requests still produce exactly the replies they
would produce without the corrupt header, and the connection is not torn
down by the corruption itself. -/
theorem C4_corrupt_header_tolerated (v : List service) (p : probe_t)
    (fs : List frame) :
    continous_method_dispath v p (.corrupt :: fs)
      = continous_method_dispath v p.inc_header_corrupted fs
    ∧ (continous_method_dispath v p (.corrupt :: fs)).writes
      = (continous_method_dispath v p fs).writes
    ∧ (continous_method_dispath v p (.corrupt :: fs)).errored
      = (continous_method_dispath v p fs).errored := by
  refine ⟨rfl, ?_, ?_⟩
  · simpa [continous_method_dispath] using
      (run_writes_errored_probe_indep v p.inc_header_corrupted p fs).1
  · simpa [continous_method_dispath] using
      (run_writes_errored_probe_indep v p.inc_header_corrupted p fs).2

/-- C5: a request whose method id no registered service claims makes the
loop count `method_not_found` exactly once and throw: the run ends in the
errored state (the connection is torn down), no reply is written for that
request, the remaining input is never dispatched, and no other probe
counter moves. -/
theorem C5_unknown_method_fails_connection (v : List service) (p : probe_t)
    (h : header) (b : List Nat) (fs : List frame)
    (hnone : method_from_services v h.meta = none) :
    continous_method_dispath v p (.ok h b :: fs)
      = ⟨⟨p.header_corrupted, p.method_not_found + 1, p.bytes_received,
          p.requests_completed⟩, [], true⟩ := by
  simp [continous_method_dispath, dispatch_method_once, hnone,
        probe_t.inc_method_not_found]

/-- C5 witness: the fixture registry does not claim method id 9, and the
loop errors out on `hdrBad` with only `method_not_found` bumped, leaving
the following valid request undispatched. -/
theorem C5_witness :
    continous_method_dispath test_services probe_t.init
        [.ok hdrBad [9, 9], .ok hdrA [1, 2]]
      = ⟨⟨0, 1, 0, 0⟩, [], true⟩ :=
  C5_unknown_method_fails_connection test_services probe_t.init hdrBad
    [9, 9] [.ok hdrA [1, 2]] rfl

/-- C7: the correlation ids of the replies written by the loop are, in
order, exactly the correlation ids of the headers of the successfully
dispatched requests: `dispatch_method_once` stamps every reply buffer with
its own request's header correlation id before the write. -/
theorem C7_reply_correlation_ids (v : List service) (p : probe_t)
    (fs : List frame) :
    (continous_method_dispath v p fs).writes.map netbuf.correlation_id
      = dispatched_cids v fs := by
  induction fs generalizing p with
  | nil => rfl
  | cons f rest ih =>
    cases f with
    | corrupt => simpa [continous_method_dispath, dispatched_cids] using ih _
    | ok h b =>
      cases hm : method_from_services v h.meta with
      | none =>
        simp [continous_method_dispath, dispatch_method_once,
              dispatched_cids, hm]
      | some m =>
        simp [continous_method_dispath, dispatch_method_once,
              dispatched_cids, hm, netbuf.set_correlation_id]
        exact ih _

/-- C8: linear service lookup returns the method of the first service in
registration order whose `method_from_id` is non-null; any services
registered earlier that do not claim the id are skipped, and any later
service claiming the same id is shadowed. -/
theorem C8_first_service_wins (pre : List service) (s : service)
    (post : List service) (id : Nat) (m : method)
    (hpre : ∀ x ∈ pre, x.method_from_id id = none)
    (hs : s.method_from_id id = some m) :
    method_from_services (pre ++ s :: post) id = some m := by
  induction pre with
  | nil => simp [method_from_services, hs]
  | cons a rest ih =>
    have ha : a.method_from_id id = none := hpre a (by simp)
    have hrest : ∀ x ∈ rest, x.method_from_id id = none := by
      intro x hx
      exact hpre x (by simp [hx])
    simpa [method_from_services, ha] using ih hrest

/-- C8 witness: with `empty_service` registered first (claims nothing),
then `echo_service`, then `shadow_service` (which also claims id 1),
lookup of id 1 yields the `echo` method of the earliest-registered
claimant. -/
theorem C8_witness :
    method_from_services [empty_service, echo_service, shadow_service] 1
      = some echo :=
  C8_first_service_wins [empty_service] echo_service [shadow_service] 1 echo
    (by
      intro x hx
      rw [List.mem_singleton] at hx
      subst hx
      rfl)
    rfl

/-- Gate closure is monotone along a step: only `stopBegin` touches the
flag, and it sets it. -/
theorem step_gate_mono {v : List service} {s : shard} {l : label}
    {t : shard} (hs : Step v s l t) (hg : s.gateClosed = true) :
    t.gateClosed = true := by
  cases hs <;> subst_vars <;> simp_all

/-- Gate closure is monotone along a trace. -/
theorem trace_gate_mono {v : List service} {s : shard} {ls : List label}
    {t : shard} (ht : Trace v s ls t) (hg : s.gateClosed = true) :
    t.gateClosed = true := by
  induction ht with
  | refl => exact hg
  | cons hs _ ih => exact ih (step_gate_mono hs hg)

/-- Every step extends the write sequence by exactly the write its label
records: nothing but an open-gate `writeOrSkip` appends. -/
theorem step_writes {v : List service} {s : shard} {l : label} {t : shard}
    (hs : Step v s l t) :
    t.writes = s.writes ++ (label.writeOf l).toList := by
  cases hs with
  | writeOrSkip h1 h2 =>
    subst_vars
    cases hg : s.gateClosed <;> simp [label.writeOf, hg]
  | _ =>
    subst_vars
    simp [label.writeOf]

/-- The write sequence of the final state of a trace is the initial one
extended by the writes of the schedule, in schedule order. -/
theorem trace_writes {v : List service} {s : shard} {ls : List label}
    {t : shard} (ht : Trace v s ls t) :
    t.writes = s.writes ++ ls.filterMap label.writeOf := by
  induction ht with
  | refl => simp
  | @cons s s2 s3 l ls hs _ ih =>
    rw [List.filterMap_cons, ih, step_writes hs]
    cases hw : label.writeOf l <;> simp [hw]

/-- Inversion of an open- or closed-gate write decision. -/
theorem writeOrSkip_inversion {v : List service} {s : shard} {k : Nat}
    {w : Bool} {t : shard} (hs : Step v s (.writeOrSkip k w) t) :
    w = !s.gateClosed ∧ s.handlers[k]? = some .resolved
    ∧ t = { s with handlers := s.handlers.set k .done,
                   writes := if s.gateClosed then s.writes
                             else s.writes ++ [k],
                   probe := s.probe.inc_request_completed } := by
  cases hs with
  | writeOrSkip h1 h2 => exact ⟨rfl, h1, h2⟩

/-- Inversion of a loop resumption. -/
theorem loopResume_inversion {v : List service} {s : shard} {k : Nat}
    {t : shard} (hs : Step v s (.loopResume k) t) :
    ∃ fs ph, s.loop = .waitingBody k fs ∧ s.handlers[k]? = some ph
      ∧ ph ≠ handler_phase.reading ∧ t = { s with loop := .parsing fs } := by
  cases hs with
  | loopResume h1 h2 h3 h4 => exact ⟨_, _, h1, h2, h3, h4⟩

/-- Inversion of a handler spawn. -/
theorem spawn_inversion {v : List service} {s : shard} {k : Nat} {t : shard}
    (hs : Step v s (.spawn k) t) :
    k = s.handlers.length ∧ s.gateClosed = false
    ∧ t.handlers = s.handlers ++ [handler_phase.reading] := by
  cases hs with
  | spawn h1 h2 h3 h4 h5 h6 => subst h6; exact ⟨rfl, h5, rfl⟩

/-- Once the gate is closed no step can append a write: the only writing
step requires the gate open. -/
theorem step_writes_frozen {v : List service} {s : shard} {l : label}
    {t : shard} (hs : Step v s l t) (hg : s.gateClosed = true) :
    t.writes = s.writes := by
  cases hs <;> subst_vars <;> simp_all

/-- Once the gate is closed the write sequence never grows again along
any schedule. -/
theorem trace_writes_frozen {v : List service} {s : shard}
    {ls : List label} {t : shard} (ht : Trace v s ls t)
    (hg : s.gateClosed = true) : t.writes = s.writes := by
  induction ht with
  | refl => rfl
  | cons hs _ ih => rw [ih (step_gate_mono hs hg), step_writes_frozen hs hg]

/-- Handlers are spawned only while the gate is open, so no spawn label
occurs in a schedule starting from a gate-closed state. -/
theorem trace_no_spawn_after_close {v : List service} {s : shard}
    {ls : List label} {t : shard} (ht : Trace v s ls t)
    (hg : s.gateClosed = true) (k : Nat) : label.spawn k ∉ ls := by
  induction ht with
  | refl => simp
  | @cons s s2 s3 l ls hs _ ih =>
    intro hmem
    rcases List.mem_cons.mp hmem with h1 | h1
    · subst h1
      exact absurd (spawn_inversion hs).2.1 (by simp [hg])
    · exact ih (step_gate_mono hs hg) h1

/-- A handler observed `done` after a step was already done before it,
unless the step is that handler taking its own write-or-skip decision. -/
theorem step_done_only_by_write {v : List service} {s : shard} {l : label}
    {t : shard} (hs : Step v s l t) (k : Nat)
    (hd : t.handlers[k]? = some .done) :
    s.handlers[k]? = some .done ∨ l = .writeOrSkip k !s.gateClosed := by
  cases hs with
  | spawn h1 h2 h3 h4 h5 h6 =>
    subst h6
    rcases Nat.lt_or_ge k s.handlers.length with hk | hk
    · left
      rw [List.getElem?_append, if_pos hk] at hd
      exact hd
    · exfalso
      rw [List.getElem?_append_right hk] at hd
      cases hk2 : k - s.handlers.length with
      | zero => rw [hk2] at hd; simp at hd
      | succ n => rw [hk2] at hd; simp at hd
  | bodyParsed h1 h2 =>
    subst h2
    rw [List.getElem?_set] at hd
    split_ifs at hd with e1 e2
    · simp at hd
    · exact Or.inl hd
  | replyReady h1 h2 =>
    subst h2
    rw [List.getElem?_set] at hd
    split_ifs at hd with e1 e2
    · simp at hd
    · exact Or.inl hd
  | writeOrSkip h1 h2 =>
    subst h2
    rename_i k2
    by_cases e1 : k2 = k
    · subst e1
      exact Or.inr rfl
    · left
      rw [List.getElem?_set_ne e1] at hd
      exact hd
  | _ =>
    subst_vars
    exact Or.inl hd

/-- Inversion of the dispatch failure on an unknown method id. -/
theorem notFound_inversion {v : List service} {s : shard} {t : shard}
    (hs : Step v s .notFound t) :
    t.handlers = s.handlers ∧ t.memAcquired = s.memAcquired
    ∧ t.writes = s.writes ∧ t.loop = .terminated true
    ∧ t.probe = s.probe.inc_method_not_found := by
  cases hs with
  | notFound h1 h2 h3 h4 h5 => subst h5; exact ⟨rfl, rfl, rfl, rfl, rfl⟩

/-- Inversion of a corrupt-header iteration. -/
theorem parseCorrupt_inversion {v : List service} {s : shard} {t : shard}
    (hs : Step v s .parseCorrupt t) :
    t.handlers = s.handlers ∧ t.memAcquired = s.memAcquired
    ∧ t.writes = s.writes
    ∧ (∃ fs, s.loop = .parsing (.corrupt :: fs) ∧ t.loop = .parsing fs)
    ∧ t.probe = s.probe.inc_header_corrupted := by
  cases hs with
  | parseCorrupt h1 h2 h3 h4 =>
    subst h4
    exact ⟨rfl, rfl, rfl, ⟨_, h1, rfl⟩, rfl⟩

/-- Inversion of a memory acquisition: only a live handler fiber reserves
units. -/
theorem reserveMemory_inversion {v : List service} {s : shard} {k a : Nat}
    {t : shard} (hs : Step v s (.reserveMemory k a) t) :
    (∃ ph, s.handlers[k]? = some ph ∧ ph ≠ handler_phase.done)
    ∧ t = { s with memAcquired := s.memAcquired + a } := by
  cases hs with
  | reserveMemory h1 h2 h3 => exact ⟨⟨_, h1, h2⟩, h3⟩

/-- Inversion of the synchronous prefix of `stop()`. -/
theorem stopBegin_inversion {v : List service} {s : shard} {t : shard}
    (hs : Step v s .stopBegin t) :
    s.stop = .notStarted
    ∧ t = { s with stop := .begun, listenersAborted := true,
                   abortRequested := true, inputClosed := true,
                   gateClosed := true } := by
  cases hs with
  | stopBegin h1 h2 => exact ⟨h1, h2⟩

/-- Inversion of the return of `stop()`: enabled only once the loop and
every handler spawned under the gate have finished. -/
theorem stopFinish_inversion {v : List service} {s : shard} {t : shard}
    (hs : Step v s .stopFinish t) :
    s.stop = .begun ∧ (∃ e, s.loop = .terminated e)
    ∧ (∀ ph ∈ s.handlers, ph = handler_phase.done)
    ∧ t = { s with stop := .returned, connsShutdown := true } := by
  cases hs with
  | stopFinish h1 h2 h3 h4 => exact ⟨h1, ⟨_, h2⟩, h3, h4⟩

end rpc

namespace rpc

/-- C6: the write-or-skip decision of every handler observes the gate at
the instant the write would be issued: with the gate open the reply is
appended to the connection's write sequence, with the gate closed the
write is skipped entirely, and along any schedule no write is started
after the gate has closed (the flag is monotone). -/
theorem C6_gate_closed_write_skip (v : List service) :
    (∀ (s : shard) (k : Nat) (t : shard),
        Step v s (.writeOrSkip k true) t →
        s.gateClosed = false ∧ t.writes = s.writes ++ [k])
    ∧ (∀ (s : shard) (k : Nat) (t : shard),
        Step v s (.writeOrSkip k false) t →
        s.gateClosed = true ∧ t.writes = s.writes)
    ∧ (∀ (s : shard) (ls : List label) (t : shard),
        Trace v s ls t → s.gateClosed = true → t.writes = s.writes) := by
  refine ⟨?_, ?_, ?_⟩
  · intro s k t hs
    obtain ⟨hw, hres, ht⟩ := writeOrSkip_inversion hs
    have hg : s.gateClosed = false := by
      cases hgc : s.gateClosed
      · rfl
      · rw [hgc] at hw; simp at hw
    subst ht
    simp [hg]
  · intro s k t hs
    obtain ⟨hw, hres, ht⟩ := writeOrSkip_inversion hs
    have hg : s.gateClosed = true := by
      cases hgc : s.gateClosed
      · rw [hgc] at hw; simp at hw
      · rfl
    subst ht
    simp [hg]
  · intro s ls t ht hg
    exact trace_writes_frozen ht hg

/-- C6 witness: the concrete teardown shard `c6_s` has the gate closed,
and the write-or-skip step of its ready handler leaves the write sequence
untouched. -/
theorem C6_witness : c6_s.gateClosed = true ∧ c6_t.writes = c6_s.writes :=
  (C6_gate_closed_write_skip test_services).2.1 c6_s 0 c6_t
    (Step.writeOrSkip (by decide) (by decide))

/-- C2: the future `dispatch_method_once` hands the dispatch loop is the
body-parse promise, so the loop resumes exactly when the handler has
passed `signal_body_parse`: a handler in the `signalled` phase (reply not
yet produced, nothing written) already lets the loop resume and parse the
next header, a resumption implies the awaited handler is past `reading`,
and while the body is still being read the loop cannot resume. -/
theorem C2_future_resolves_at_body_parse (v : List service) :
    (∀ (s : shard) (k : Nat) (fs : List frame),
        s.loop = .waitingBody k fs →
        s.handlers[k]? = some .signalled →
        Step v s (.loopResume k) { s with loop := .parsing fs })
    ∧ (∀ (s : shard) (k : Nat) (t : shard),
        Step v s (.loopResume k) t →
        ∃ fs ph, s.loop = .waitingBody k fs ∧ s.handlers[k]? = some ph
          ∧ ph ≠ handler_phase.reading
          ∧ t = { s with loop := .parsing fs })
    ∧ (∀ (s : shard) (k : Nat) (t : shard),
        s.handlers[k]? = some .reading →
        ¬ Step v s (.loopResume k) t) := by
  refine ⟨?_, ?_, ?_⟩
  · intro s k fs h1 h2
    exact Step.loopResume h1 h2 (by decide) rfl
  · intro s k t hs
    exact loopResume_inversion hs
  · intro s k t hr hs
    obtain ⟨fs, ph, h1, h2, h3, h4⟩ := loopResume_inversion hs
    rw [hr] at h2
    exact h3 (Option.some_injective _ h2.symm)

/-- C2 witness: with handler 0 in the `signalled` phase (its reply still
unproduced), the loop of `c2_s` resumes and returns to parsing. -/
theorem C2_witness : Step test_services c2_s (.loopResume 0) c2_t :=
  (C2_future_resolves_at_body_parse test_services).1 c2_s 0 [.corrupt]
    rfl rfl

/-- C3: the `stop()` lifecycle.  Its synchronous prefix aborts the
listeners, raises the abort source, shuts down connection input and closes
the gate, without yet shutting the registered connections down; handlers
are only ever spawned with the gate open, hence never after `stop()`
begins (no spawn occurs in any schedule from a gate-closed state); a
handler can become `done` only by its own write-or-skip decision; and the
gate-close future resolves — letting `stop()` shut down the remaining
connections and return — only when the dispatch loop has terminated and
every spawned handler has taken that decision. -/
theorem C3_stop_shutdown_invariants (v : List service) :
    (∀ (s t : shard), Step v s .stopBegin t →
        t.listenersAborted = true ∧ t.abortRequested = true
        ∧ t.inputClosed = true ∧ t.gateClosed = true
        ∧ t.connsShutdown = s.connsShutdown ∧ t.stop = .begun)
    ∧ (∀ (s : shard) (k : Nat) (t : shard),
        Step v s (.spawn k) t → s.gateClosed = false)
    ∧ (∀ (s : shard) (ls : List label) (t : shard),
        Trace v s ls t → s.gateClosed = true →
        ∀ k, label.spawn k ∉ ls)
    ∧ (∀ (s : shard) (l : label) (t : shard) (k : Nat),
        Step v s l t → t.handlers[k]? = some .done →
        s.handlers[k]? = some .done ∨ l = .writeOrSkip k !s.gateClosed)
    ∧ (∀ (s t : shard), Step v s .stopFinish t →
        (∀ ph ∈ s.handlers, ph = handler_phase.done)
        ∧ (∃ e, s.loop = loop_state.terminated e)
        ∧ t.connsShutdown = true ∧ t.stop = .returned) := by
  refine ⟨?_, ?_, ?_, ?_, ?_⟩
  · intro s t hs
    obtain ⟨h1, h2⟩ := stopBegin_inversion hs
    subst h2
    exact ⟨rfl, rfl, rfl, rfl, rfl, rfl⟩
  · intro s k t hs
    exact (spawn_inversion hs).2.1
  · intro s ls t ht hg k
    exact trace_no_spawn_after_close ht hg k
  · intro s l t k hs hd
    exact step_done_only_by_write hs k hd
  · intro s t hs
    obtain ⟨h1, h2, h3, h4⟩ := stopFinish_inversion hs
    subst h4
    exact ⟨h3, h2, rfl, rfl⟩

/-- C3 witness: on the concrete idle shard, the `stop()` prefix closes the
gate while leaving connection shutdown for later, and once the loop has
exited, the finish step shuts the connections down and marks `stop()`
returned. -/
theorem C3_witness :
    (c3_s1.gateClosed = true ∧ c3_s1.connsShutdown = c3_s0.connsShutdown)
    ∧ (c3_s3.connsShutdown = true ∧ c3_s3.stop = stop_phase.returned) := by
  have h1 := (C3_stop_shutdown_invariants test_services).1 c3_s0 c3_s1
    (Step.stopBegin rfl (by decide))
  have h5 := (C3_stop_shutdown_invariants test_services).2.2.2.2 c3_s2 c3_s3
    (Step.stopFinish rfl rfl (by decide) (by decide))
  exact ⟨⟨h1.2.2.2.1, h1.2.2.2.2.1⟩, ⟨h5.2.2.1, h5.2.2.2⟩⟩

end rpc

namespace rpc

/-- Concrete legal schedule of the reordering fixture: request 0 (header
`hdrA`) is dispatched first and signals its body parse; the loop then
dispatches request 1 (header `hdrB`); handler 1 finishes its reply first
and writes; handler 0 finishes later and writes second. -/
theorem c1_trace : Trace test_services c1_s0 c1_labels c1_s9 :=
  Trace.cons
    (@Step.spawn test_services c1_s0 hdrA [1, 2] [c1_fB] echo c1_s1
      rfl rfl rfl rfl rfl (by decide))
    (Trace.cons
      (@Step.bodyParsed test_services c1_s1 0 c1_s2 rfl (by decide))
      (Trace.cons
        (@Step.loopResume test_services c1_s2 0 [c1_fB]
          handler_phase.signalled c1_s3 rfl rfl (by decide) (by decide))
        (Trace.cons
          (@Step.spawn test_services c1_s3 hdrB [3, 4] [] echo c1_s4
            rfl rfl rfl rfl rfl (by decide))
          (Trace.cons
            (@Step.bodyParsed test_services c1_s4 1 c1_s5 rfl (by decide))
            (Trace.cons
              (@Step.replyReady test_services c1_s5 1 c1_s6 rfl (by decide))
              (Trace.cons
                (@Step.writeOrSkip test_services c1_s6 1 c1_s7 rfl
                  (by decide))
                (Trace.cons
                  (@Step.replyReady test_services c1_s7 0 c1_s8 rfl
                    (by decide))
                  (Trace.cons
                    (@Step.writeOrSkip test_services c1_s8 0 c1_s9 rfl
                      (by decide))
                    (Trace.refl c1_s9)))))))))

/-- C1 counterexample: on a single connection, request 0 (correlation id
101) arrives before request 1 (correlation id 102), both handlers produce
replies, yet a legal cooperative schedule writes the reply of request 1
before the reply of request 0 — the write sequence ends as `[1, 0]`.
Nothing serializes write issuance in arrival order: the dispatch loop
awaits only the body-parse signal, and each handler issues its own write
when it resolves, so a later request whose reply production finishes
earlier writes first. -/
theorem C1_reply_order_counterexample :
    c1_s0.loop = loop_state.parsing [.ok hdrA [1, 2], .ok hdrB [3, 4]]
    ∧ Trace test_services c1_s0 c1_labels c1_s9
    ∧ c1_s9.handlers = [handler_phase.done, handler_phase.done]
    ∧ c1_s9.writes = [1, 0] :=
  ⟨by decide, c1_trace, by decide, by decide⟩

/-- C1 (amended): per connection, replies are written in the order the
handlers take their write decisions (handler-resolution order) — the
final write sequence of any schedule is exactly the sequence of open-gate
write-decision steps of that schedule — and this order may differ from
arrival order when a later request's reply production completes earlier. -/
theorem C1_amended_writes_in_resolution_order (v : List service)
    (s : shard) (ls : List label) (t : shard) (ht : Trace v s ls t) :
    t.writes = s.writes ++ ls.filterMap label.writeOf :=
  trace_writes ht

/-- C1 (amended) witness: on the reordering schedule the final write
sequence is exactly the schedule's write decisions, `[1, 0]`. -/
theorem C1_amended_witness :
    c1_s9.writes = c1_s0.writes ++ c1_labels.filterMap label.writeOf :=
  C1_amended_writes_in_resolution_order test_services c1_s0 c1_labels c1_s9
    c1_trace

end rpc

namespace rpc

/-- Concrete failed dispatch: the unknown method id 9 terminates the loop
of `c10_s` with only `method_not_found` counted and no handler spawned. -/
theorem c10_step : Step test_services c10_s .notFound c10_t :=
  @Step.notFound test_services c10_s hdrBad [9, 9] [] c10_t
    rfl rfl rfl rfl (by decide)

/-- C10: a request that fails before dispatch leaves everything but its
failure counter untouched.  Functionally: an unknown method id makes
`dispatch_method_once` throw with only `method_not_found` incremented
(bytes-received and requests-completed unchanged, no reply produced), and
a corrupt header makes the loop iteration bump only `header_corrupted`.
In the step semantics: the `notFound` and `parseCorrupt` steps spawn no
handler fiber, acquire no memory units, write nothing and move only their
own failure counter; and memory units are only ever acquired by a step of
a live handler fiber, so no units are acquired on behalf of a request
that never spawned one. -/
theorem C10_failed_requests_no_side_effects :
    (∀ (v : List service) (p : probe_t) (h : header) (b : List Nat),
        method_from_services v h.meta = none →
        dispatch_method_once v p h b
          = .error ⟨p.header_corrupted, p.method_not_found + 1,
                    p.bytes_received, p.requests_completed⟩)
    ∧ (∀ (v : List service) (p : probe_t),
        continous_method_dispath v p [.corrupt]
          = ⟨⟨p.header_corrupted + 1, p.method_not_found,
              p.bytes_received, p.requests_completed⟩, [], false⟩)
    ∧ (∀ (v : List service) (s t : shard), Step v s .notFound t →
        t.handlers = s.handlers ∧ t.memAcquired = s.memAcquired
        ∧ t.writes = s.writes
        ∧ t.probe.bytes_received = s.probe.bytes_received
        ∧ t.probe.requests_completed = s.probe.requests_completed
        ∧ t.probe.method_not_found = s.probe.method_not_found + 1
        ∧ t.probe.header_corrupted = s.probe.header_corrupted)
    ∧ (∀ (v : List service) (s t : shard), Step v s .parseCorrupt t →
        t.handlers = s.handlers ∧ t.memAcquired = s.memAcquired
        ∧ t.writes = s.writes
        ∧ t.probe.bytes_received = s.probe.bytes_received
        ∧ t.probe.requests_completed = s.probe.requests_completed
        ∧ t.probe.header_corrupted = s.probe.header_corrupted + 1
        ∧ t.probe.method_not_found = s.probe.method_not_found)
    ∧ (∀ (v : List service) (s : shard) (k a : Nat) (t : shard),
        Step v s (.reserveMemory k a) t →
        ∃ ph, s.handlers[k]? = some ph ∧ ph ≠ handler_phase.done) := by
  refine ⟨?_, ?_, ?_, ?_, ?_⟩
  · intro v p h b hnone
    simp [dispatch_method_once, hnone, probe_t.inc_method_not_found]
  · intro v p
    simp [continous_method_dispath, probe_t.inc_header_corrupted]
  · intro v s t hs
    obtain ⟨h1, h2, h3, h4, h5⟩ := notFound_inversion hs
    rw [h5]
    exact ⟨h1, h2, h3, rfl, rfl, rfl, rfl⟩
  · intro v s t hs
    obtain ⟨h1, h2, h3, h4, h5⟩ := parseCorrupt_inversion hs
    rw [h5]
    exact ⟨h1, h2, h3, rfl, rfl, rfl, rfl⟩
  · intro v s k a t hs
    exact (reserveMemory_inversion hs).1

/-- C10 witness: the unknown-method fixture evaluates as the theorem
states, functionally and as a step. -/
theorem C10_witness :
    dispatch_method_once test_services probe_t.init hdrBad [9, 9]
      = .error ⟨0, 1, 0, 0⟩
    ∧ c10_t.handlers = c10_s.handlers
    ∧ c10_t.probe.bytes_received = c10_s.probe.bytes_received :=
  ⟨C10_failed_requests_no_side_effects.1 test_services probe_t.init hdrBad
    [9, 9] rfl,
   (C10_failed_requests_no_side_effects.2.2.1 test_services c10_s c10_t
     c10_step).1,
   (C10_failed_requests_no_side_effects.2.2.1 test_services c10_s c10_t
     c10_step).2.2.2.1⟩

end rpc

namespace security_audit

/-- Enqueueing never changes the enabled switch or the configured type
set, only the used reservation. -/
theorem enqueue_preserves_config (m : audit_log_manager) (t : event_type)
    (sz : Nat) :
    (m.enqueue_audit_event t sz).2.effectively_enabled
      = m.effectively_enabled
    ∧ (m.enqueue_audit_event t sz).2.enabled_event_types
      = m.enabled_event_types := by
  unfold audit_log_manager.enqueue_audit_event
  split_ifs <;> exact ⟨rfl, rfl⟩

/-- Every observation in a run of enqueue attempts against an effectively
enabled manager satisfies the backpressure law for configured types:
success recorded iff the reservation available at the instant covered the
event size. -/
theorem run_attempts_sound (attempts : List (event_type × Nat)) :
    ∀ (m : audit_log_manager) (a : attempt_obs),
      m.effectively_enabled = true → a ∈ run_attempts m attempts →
      a.t ∈ m.enabled_event_types → (a.ok = true ↔ a.size ≤ a.avail) := by
  induction attempts with
  | nil =>
    intro m a hen ha hcfg
    simp [run_attempts] at ha
  | cons x rest ih =>
    intro m a hen ha hcfg
    obtain ⟨t, sz⟩ := x
    rw [run_attempts] at ha
    rcases List.mem_cons.mp ha with h1 | h1
    · subst h1
      simp only [audit_log_manager.enqueue_audit_event, hen] at hcfg ⊢
      simp only [hcfg]
      by_cases hsz : sz ≤ m.avaiable_reservation <;> simp [hsz]
    · refine ih (m.enqueue_audit_event t sz).2 a ?_ h1 ?_
      · rw [(enqueue_preserves_config m t sz).1]
        exact hen
      · rw [(enqueue_preserves_config m t sz).2]
        exact hcfg

/-- C9: with auditing effectively enabled, every enqueue attempt of a
configured event type in any sequence of attempts returns true iff the
reservation available at the instant of that attempt was at least the
event's size. -/
theorem C9_enqueue_iff_reservation (m : audit_log_manager)
    (attempts : List (event_type × Nat)) (a : attempt_obs)
    (hen : m.effectively_enabled = true)
    (ha : a ∈ run_attempts m attempts)
    (hcfg : a.t ∈ m.enabled_event_types) :
    a.ok = true ↔ a.size ≤ a.avail :=
  run_attempts_sound attempts m a hen ha hcfg

/-- C9 witness: in the concrete three-attempt run, the second attempt
(60 bytes asked, 40 available) is refused, matching the law. -/
theorem C9_witness :
    c9_obs ∈ run_attempts c9_m0 c9_attempts
    ∧ (c9_obs.ok = true ↔ c9_obs.size ≤ c9_obs.avail) :=
  ⟨by decide,
   C9_enqueue_iff_reservation c9_m0 c9_attempts c9_obs rfl (by decide)
     (by decide)⟩

end security_audit
